import Mathlib

/-!
Shallow embedding of the client-side core of the `llm-tracker-ui` repository:
the request gateway interceptors (`src/services/api.ts`), the routing guard
(`src/components/ProtectedRoute.tsx`), the analytics query construction and
response normalization (`src/pages/Dashboard.tsx`, `src/pages/Analytics.tsx`),
and the events query construction (`src/pages/Events.tsx`).

JavaScript conventions carried over faithfully:
- optional / possibly-`undefined` values are `Option`,
- JS truthiness on strings is the test against `""`,
- JS `x || d` on an optional number is `Option.getD` (both send an absent
  value and a present `0` to `0`),
- JS object maps (`Record<string, number>`) are association lists in
  `Object.entries` order,
- JS numbers are `ℚ` (the analytics quantities are finite decimals).
-/

namespace LLMTracker

/-! ## Calendar dates (the `date-fns` subset used by `calculateDateRange`) -/

/-- A calendar date, `year-month-day`, months `1..12`, days `1..31`. -/
structure Date where
  year : Int
  month : Nat
  day : Nat
deriving DecidableEq

/-- Gregorian leap-year rule. -/
def isLeapYear (y : Int) : Bool :=
  y % 4 == 0 && (y % 100 != 0 || y % 400 == 0)

/-- Number of days in a month of a given year. -/
def daysInMonth (y : Int) (m : Nat) : Nat :=
  if m = 2 then (if isLeapYear y then 29 else 28)
  else if m = 4 ∨ m = 6 ∨ m = 9 ∨ m = 11 then 30
  else 31

/-- The calendar day before `d`. -/
def prevDay (d : Date) : Date :=
  if d.day > 1 then ⟨d.year, d.month, d.day - 1⟩
  else if d.month > 1 then ⟨d.year, d.month - 1, daysInMonth d.year (d.month - 1)⟩
  else ⟨d.year - 1, 12, 31⟩

/-- Model of `date-fns` `subDays`: the date `n` days before `d`. -/
def subDays (d : Date) : Nat → Date
  | 0 => d
  | n + 1 => prevDay (subDays d n)

/-- Model of `date-fns` `startOfMonth`. -/
def startOfMonth (d : Date) : Date := ⟨d.year, d.month, 1⟩

/-- Model of `date-fns` `endOfMonth`. -/
def endOfMonth (d : Date) : Date := ⟨d.year, d.month, daysInMonth d.year d.month⟩

/-- Model of `date-fns` `startOfYear`. -/
def startOfYear (d : Date) : Date := ⟨d.year, 1, 1⟩

/-- Model of `date-fns` `endOfYear`. -/
def endOfYear (d : Date) : Date := ⟨d.year, 12, 31⟩

/-- Two-digit zero padding, as in the `yyyy-MM-dd` format pattern. -/
def pad2 (n : Nat) : String :=
  if n < 10 then "0" ++ toString n else toString n

/-- Model of `date-fns` `format` with the pattern `yyyy-MM-dd`. -/
def formatDate (d : Date) : String :=
  toString d.year ++ "-" ++ pad2 d.month ++ "-" ++ pad2 d.day

/-- Function `calculateDateRange` from `Dashboard.tsx` and `Analytics.tsx` (the two
copies are textually identical): resolves a named range selector against
`today` and returns the `yyyy-MM-dd`-formatted `{start, end}` pair. -/
def calculateDateRange (range : String) (today : Date) : String × String :=
  let pair : Date × Date :=
    if range = "7days" then (subDays today 7, today)
    else if range = "30days" then (subDays today 30, today)
    else if range = "thismonth" then (startOfMonth today, endOfMonth today)
    else if range = "thisyear" then (startOfYear today, endOfYear today)
    else if range = "alltime" then (⟨2024, 1, 1⟩, today)
    else (subDays today 30, today)
  (formatDate pair.1, formatDate pair.2)

/-! ## Request Gateway (`src/services/api.ts`: the axios interceptors)

`localStorage` is modelled by the two keys the gateway touches (`token` and
`user`); `getItem` returns `none` for an absent key.  Request headers are a
JS object, modelled as a partial map from header names to values. -/

/-- The persisted client-local storage as seen by the gateway: the `token`
and `user` keys of `localStorage`. -/
structure Storage where
  token : Option String
  user : Option String
deriving DecidableEq

/-- An outbound request configuration; `headers` is the JS header object. -/
structure RequestConfig where
  url : String
  headers : String → Option String

/-- Assignment `config.headers.Authorization = v` — JS object field update. -/
def setHeader (hs : String → Option String) (k v : String) : String → Option String :=
  fun k' => if k' = k then some v else hs k'

/-- The request interceptor of `api.interceptors.request.use`: reads `token`
from storage and, when it is truthy (present and non-empty), attaches
`Authorization: Bearer <token>`; otherwise returns the config unchanged. -/
def requestInterceptor (storage : Storage) (config : RequestConfig) : RequestConfig :=
  match storage.token with
  | some t =>
    if t = "" then config
    else { config with headers := setHeader config.headers "Authorization" ("Bearer " ++ t) }
  | none => config

/-- A backend response (the success path of the response interceptor). -/
structure Response where
  status : Nat
  body : String
deriving DecidableEq

/-- The rejected value reaching the error handler of the response interceptor;
`status` is `error.response?.status` (`none` when there was no response,
e.g. a network failure). -/
structure HttpError where
  status : Option Nat
deriving DecidableEq

/-- The success handler of `api.interceptors.response.use`: the identity. -/
def responseSuccessInterceptor (r : Response) : Response := r

/-- Result of running the error handler of the response interceptor: the storage
after it ran, the forced navigation target (if any), and the error it
rejects with. -/
structure InterceptOutcome where
  storage : Storage
  redirect : Option String
  rejectedWith : HttpError
deriving DecidableEq

/-- The error handler of `api.interceptors.response.use`: on status 401 it
removes `token` and `user` from storage and navigates to `/login`; in every
case it returns `Promise.reject(error)` with the original error. -/
def responseErrorInterceptor (storage : Storage) (e : HttpError) : InterceptOutcome :=
  if e.status = some 401 then
    { storage := { token := none, user := none }, redirect := some "/login", rejectedWith := e }
  else
    { storage := storage, redirect := none, rejectedWith := e }

/-! ## Access Gate (`src/components/ProtectedRoute.tsx`) -/

/-- What `ProtectedRoute` renders. -/
inductive GateDecision where
  /-- The `CircularProgress` waiting indicator (the `isLoading` branch). -/
  | waiting : GateDecision
  /-- Redirect to the entry point, remembering the requested location. -/
  | redirectLogin (fromLocation : String) : GateDecision
  /-- Redirect to the application root. -/
  | redirectRoot : GateDecision
  /-- The children are rendered. -/
  | admitted : GateDecision
deriving DecidableEq

/-- Component `ProtectedRoute`: decides from the observable Auth Controller state
(`isLoading`, `isAuthenticated`, `user?.role`), the route requirement flags
(`requireAdmin`, `requireSuperAdmin`) and the current location.  `userRole`
is `none` when `user` is null (JS `user?.role` is `undefined`). -/
def protectedRoute (isLoading isAuthenticated : Bool) (userRole : Option String)
    (requireAdmin requireSuperAdmin : Bool) (location : String) : GateDecision :=
  if isLoading then .waiting
  else if !isAuthenticated then .redirectLogin location
  else if requireAdmin && !(userRole == some "ADMIN") && !(userRole == some "SUPERADMIN") then
    .redirectRoot
  else if requireSuperAdmin && !(userRole == some "SUPERADMIN") then .redirectRoot
  else .admitted

/-! ## JS coercion helpers -/

/-- JS `x || 0` on an optional number: absent becomes `0`; a present value is
kept (a present `0` is also `0`, so `Option.getD` is exact). -/
def orZero (x : Option ℚ) : ℚ := x.getD 0

/-- JS `a || b` on strings: `a` when it is truthy (non-empty), else `b`. -/
def jsOrStr (a b : String) : String := if a = "" then b else a

/-- JS `a || b` where `a` may be `undefined`: absent or empty falls to `b`. -/
def jsOrOptStr (a : Option String) (b : String) : String :=
  match a with
  | some s => jsOrStr s b
  | none => b

/-! ## Analytics Query Planner (`loadAnalytics` in `Dashboard.tsx` and
`Analytics.tsx`, `loadEvents` in `Events.tsx`) -/

/-- The authenticated identity consulted by the planners (`user` from
`useAuth()`): its role string and its tenant (`customerId`, the empty string
standing for a falsy / absent tenant). -/
structure UserInfo where
  role : String
  customerId : String
deriving DecidableEq

/-- The parameter set sent to `GET /api/analytics/usage` by `loadAnalytics`:
`startDate` and `endDate` always, `customerId` only when the tenant guard
added it. -/
structure AnalyticsParams where
  startDate : String
  endDate : String
  customerId : Option String
deriving DecidableEq

/-- Construction of `analyticsParams` in `loadAnalytics` (identical in
`Dashboard.tsx` and `Analytics.tsx`): starts from the resolved dates and adds
`customerId := user.customerId` exactly when `user` is present, its role is
not `SUPERADMIN`, and its `customerId` is truthy. -/
def buildAnalyticsParams (user : Option UserInfo) (startDate endDate : String) :
    AnalyticsParams :=
  match user with
  | some u =>
    if u.role ≠ "SUPERADMIN" ∧ u.customerId ≠ "" then
      { startDate := startDate, endDate := endDate, customerId := some u.customerId }
    else
      { startDate := startDate, endDate := endDate, customerId := none }
  | none => { startDate := startDate, endDate := endDate, customerId := none }

/-- The filter fields of the Events page (`filters` state in `Events.tsx`);
each is a string, empty meaning "no filter". -/
structure EventsFilters where
  customerId : String
  userId : String
  vendor : String
  model : String
  apiType : String
deriving DecidableEq

/-- The parameter set sent to `GET /api/events` by `loadEvents`. -/
structure EventsParams where
  customerId : String
  userId : String
  vendor : String
  model : String
  apiType : String
  page : Nat
  size : Nat
deriving DecidableEq

/-- Construction of `eventsParams` in `loadEvents` (`Events.tsx`): spreads the
caller-supplied filters plus paging, then overwrites `customerId` with
`user.customerId` exactly when `user` is present, its role is not
`SUPERADMIN`, and its `customerId` is truthy. -/
def buildEventsParams (user : Option UserInfo) (filters : EventsFilters)
    (page size : Nat) : EventsParams :=
  let base : EventsParams :=
    { customerId := filters.customerId, userId := filters.userId,
      vendor := filters.vendor, model := filters.model,
      apiType := filters.apiType, page := page, size := size }
  match user with
  | some u =>
    if u.role ≠ "SUPERADMIN" ∧ u.customerId ≠ "" then
      { base with customerId := u.customerId }
    else base
  | none => base

/-! ## Analytics Normalizer (`AnalyticsResponse` from `api.ts`, transformed in
`loadAnalytics` of `Analytics.tsx`)

The wire payload `AnalyticsResponse` is optional-heavy: every analytics field
may be absent.  Maps (`Record<string, number>`) are association lists in
`Object.entries` order. -/

/-- One point of the wire `timeSeriesData` sequence. -/
structure TimeSeriesPoint where
  date : String
  events : Option ℚ
  tokens : Option ℚ
  cost : Option ℚ
  revenue : Option ℚ
  profit : Option ℚ
deriving DecidableEq

/-- One entry of the wire `topCustomers` sequence. -/
structure TopCustomerEntry where
  customerId : String
  organizationName : String
  events : Option ℚ
  tokens : Option ℚ
  cost : Option ℚ
  revenue : Option ℚ
  profit : Option ℚ
  profitMargin : Option ℚ
deriving DecidableEq

/-- One entry of the wire `topUsers` sequence. -/
structure TopUserEntry where
  userId : String
  fullName : String
  email : String
  customerId : String
  events : Option ℚ
  tokens : Option ℚ
  cost : Option ℚ
  revenue : Option ℚ
  profit : Option ℚ
deriving DecidableEq

/-- The wire `growthMetrics` nested object. -/
structure GrowthMetrics where
  eventsGrowth : Option ℚ
  tokensGrowth : Option ℚ
  costGrowth : Option ℚ
  revenueGrowth : Option ℚ
  profitGrowth : Option ℚ
  comparisonPeriod : Option String
deriving DecidableEq

/-- The wire `predictions` nested object. -/
structure Predictions where
  predictedEvents : Option ℚ
  predictedTokens : Option ℚ
  predictedCost : Option ℚ
  predictedRevenue : Option ℚ
  predictedProfit : Option ℚ
deriving DecidableEq

/-- The wire `efficiencyMetrics` nested object. -/
structure EfficiencyMetrics where
  costPerEvent : Option ℚ
  revenuePerEvent : Option ℚ
  profitPerEvent : Option ℚ
  costPerToken : Option ℚ
  revenuePerToken : Option ℚ
  profitPerToken : Option ℚ
deriving DecidableEq

/-- The wire `seasonality` nested object. -/
structure Seasonality where
  weeklyPattern : Option (List (String × ℚ))
  monthlyPattern : Option (List (String × ℚ))
deriving DecidableEq

/-- One entry of the wire `anomalies` sequence. -/
structure Anomaly where
  date : String
  type : String
  metric : String
  description : String
deriving DecidableEq

/-- The wire payload of `GET /api/analytics/usage` (`AnalyticsResponse` in
`api.ts`); every analytics field is optional. -/
structure AnalyticsResponse where
  period : String
  startDate : String
  endDate : String
  totalEvents : Option ℚ
  totalTokens : Option ℚ
  totalCost : Option ℚ
  totalRevenue : Option ℚ
  totalProfit : Option ℚ
  profitMargin : Option ℚ
  usageByVendor : Option (List (String × ℚ))
  usageByModel : Option (List (String × ℚ))
  usageByApiType : Option (List (String × ℚ))
  usageByRegion : Option (List (String × ℚ))
  usageByEndpoint : Option (List (String × ℚ))
  usageByUserRole : Option (List (String × ℚ))
  costByVendor : Option (List (String × ℚ))
  costByModel : Option (List (String × ℚ))
  costByApiType : Option (List (String × ℚ))
  timeSeriesData : Option (List TimeSeriesPoint)
  topCustomers : Option (List TopCustomerEntry)
  topUsers : Option (List TopUserEntry)
  growthMetrics : Option GrowthMetrics
  predictions : Option Predictions
  efficiencyMetrics : Option EfficiencyMetrics
  seasonality : Option Seasonality
  anomalies : Option (List Anomaly)
deriving DecidableEq

/-- The `summary` block of the view model (`AnalyticsData` in
`Analytics.tsx`). -/
structure Summary where
  totalEvents : ℚ
  totalTokens : ℚ
  totalCost : ℚ
  totalRevenue : ℚ
  totalProfit : ℚ
  profitMargin : ℚ
deriving DecidableEq

/-- One point of the `timeSeriesData` of the view model (its `profit` field is
optional in the TS type, though the transform always assigns it). -/
structure TimeSeriesView where
  date : String
  events : ℚ
  cost : ℚ
  revenue : ℚ
  profit : Option ℚ
deriving DecidableEq

/-- One entry of the `topCustomers` of the view model. -/
structure TopCustomerView where
  customerName : String
  totalCost : ℚ
  eventCount : ℚ
deriving DecidableEq

/-- The chart-ready view model (`AnalyticsData` in `Analytics.tsx`); the
fields that are optional in the TS interface are `Option` here, so that "the
transform leaves no field absent" is a provable statement, not a type-level
triviality. -/
structure AnalyticsData where
  summary : Summary
  usageByVendor : List (String × ℚ)
  usageByModel : List (String × ℚ)
  usageByApiType : List (String × ℚ)
  usageByRegion : Option (List (String × ℚ))
  usageByEndpoint : Option (List (String × ℚ))
  usageByUserRole : Option (List (String × ℚ))
  timeSeriesData : List TimeSeriesView
  topCustomers : List TopCustomerView
  growthMetrics : Option GrowthMetrics
  predictions : Option Predictions
  efficiencyMetrics : Option EfficiencyMetrics
  seasonality : Option Seasonality
  anomalies : Option (List Anomaly)
deriving DecidableEq

/-- An empty `growthMetrics` object (`\x7b\x7d` in JS). -/
def emptyGrowthMetrics : GrowthMetrics :=
  { eventsGrowth := none, tokensGrowth := none, costGrowth := none,
    revenueGrowth := none, profitGrowth := none, comparisonPeriod := none }

/-- An empty `predictions` object. -/
def emptyPredictions : Predictions :=
  { predictedEvents := none, predictedTokens := none, predictedCost := none,
    predictedRevenue := none, predictedProfit := none }

/-- An empty `efficiencyMetrics` object. -/
def emptyEfficiencyMetrics : EfficiencyMetrics :=
  { costPerEvent := none, revenuePerEvent := none, profitPerEvent := none,
    costPerToken := none, revenuePerToken := none, profitPerToken := none }

/-- An empty `seasonality` object. -/
def emptySeasonality : Seasonality :=
  { weeklyPattern := none, monthlyPattern := none }

/-- The `transformedData` construction in `loadAnalytics` of `Analytics.tsx`
(lines 520–552): the Analytics Normalizer.  Each `x || 0` is `orZero`, each
`x || \x7b\x7d` / `x || []` is `Option.getD` wrapped back in `some` (the TS
target field is optional but always assigned), and the top-customer name is
`organizationName || customerId || "Unknown"`. -/
def transformAnalytics (data : AnalyticsResponse) : AnalyticsData :=
  { summary :=
      { totalEvents := orZero data.totalEvents
        totalTokens := orZero data.totalTokens
        totalCost := orZero data.totalCost
        totalRevenue := orZero data.totalRevenue
        totalProfit := orZero data.totalProfit
        profitMargin := orZero data.profitMargin }
    usageByVendor := data.usageByVendor.getD []
    usageByModel := data.usageByModel.getD []
    usageByApiType := data.usageByApiType.getD []
    usageByRegion := some (data.usageByRegion.getD [])
    usageByEndpoint := some (data.usageByEndpoint.getD [])
    usageByUserRole := some (data.usageByUserRole.getD [])
    timeSeriesData :=
      (data.timeSeriesData.getD []).map fun item =>
        { date := item.date
          events := orZero item.events
          cost := orZero item.cost
          revenue := orZero item.revenue
          profit := some (orZero item.profit) }
    topCustomers :=
      (data.topCustomers.getD []).map fun customer =>
        { customerName := jsOrStr customer.organizationName
            (jsOrStr customer.customerId "Unknown")
          totalCost := orZero customer.cost
          eventCount := orZero customer.events }
    growthMetrics := some (data.growthMetrics.getD emptyGrowthMetrics)
    predictions := some (data.predictions.getD emptyPredictions)
    efficiencyMetrics := some (data.efficiencyMetrics.getD emptyEfficiencyMetrics)
    seasonality := some (data.seasonality.getD emptySeasonality)
    anomalies := some (data.anomalies.getD []) }

/-- The empty payload `\x7b\x7d`: every optional field absent (the three
non-optional strings of the TS interface are empty). -/
def emptyResponse : AnalyticsResponse :=
  { period := "", startDate := "", endDate := "",
    totalEvents := none, totalTokens := none, totalCost := none,
    totalRevenue := none, totalProfit := none, profitMargin := none,
    usageByVendor := none, usageByModel := none, usageByApiType := none,
    usageByRegion := none, usageByEndpoint := none, usageByUserRole := none,
    costByVendor := none, costByModel := none, costByApiType := none,
    timeSeriesData := none, topCustomers := none, topUsers := none,
    growthMetrics := none, predictions := none, efficiencyMetrics := none,
    seasonality := none, anomalies := none }

/-- Decides whether a payload is fully populated: every optional field of the
wire `AnalyticsResponse` is present. -/
def isFullPayload (d : AnalyticsResponse) : Bool :=
  d.totalEvents.isSome && d.totalTokens.isSome && d.totalCost.isSome &&
  d.totalRevenue.isSome && d.totalProfit.isSome && d.profitMargin.isSome &&
  d.usageByVendor.isSome && d.usageByModel.isSome && d.usageByApiType.isSome &&
  d.usageByRegion.isSome && d.usageByEndpoint.isSome && d.usageByUserRole.isSome &&
  d.costByVendor.isSome && d.costByModel.isSome && d.costByApiType.isSome &&
  d.timeSeriesData.isSome && d.topCustomers.isSome && d.topUsers.isSome &&
  d.growthMetrics.isSome && d.predictions.isSome && d.efficiencyMetrics.isSome &&
  d.seasonality.isSome && d.anomalies.isSome

/-- Re-injection of a view model as a fully-populated wire payload: every
field the normalizer reads is made present and carries the value from the
view model; fields the normalizer drops (`period`, dates, `tokens`, `costBy*`,
`topUsers`, the extra top-customer measures) are populated with neutral
values.  This is the "already-fully-populated payload" of the idempotence
claim, phrased from the normalized side. -/
def reinject (period startDate endDate : String) (v : AnalyticsData) :
    AnalyticsResponse :=
  { period := period, startDate := startDate, endDate := endDate,
    totalEvents := some v.summary.totalEvents,
    totalTokens := some v.summary.totalTokens,
    totalCost := some v.summary.totalCost,
    totalRevenue := some v.summary.totalRevenue,
    totalProfit := some v.summary.totalProfit,
    profitMargin := some v.summary.profitMargin,
    usageByVendor := some v.usageByVendor,
    usageByModel := some v.usageByModel,
    usageByApiType := some v.usageByApiType,
    usageByRegion := some (v.usageByRegion.getD []),
    usageByEndpoint := some (v.usageByEndpoint.getD []),
    usageByUserRole := some (v.usageByUserRole.getD []),
    costByVendor := some [], costByModel := some [], costByApiType := some [],
    timeSeriesData := some (v.timeSeriesData.map fun p =>
      { date := p.date, events := some p.events, tokens := some 0,
        cost := some p.cost, revenue := some p.revenue,
        profit := some (p.profit.getD 0) }),
    topCustomers := some (v.topCustomers.map fun c =>
      { customerId := c.customerName, organizationName := c.customerName,
        events := some c.eventCount, tokens := some 0, cost := some c.totalCost,
        revenue := some 0, profit := some 0, profitMargin := some 0 }),
    topUsers := some [],
    growthMetrics := some (v.growthMetrics.getD emptyGrowthMetrics),
    predictions := some (v.predictions.getD emptyPredictions),
    efficiencyMetrics := some (v.efficiencyMetrics.getD emptyEfficiencyMetrics),
    seasonality := some (v.seasonality.getD emptySeasonality),
    anomalies := some (v.anomalies.getD []) }

/-! ## Category shares (`Dashboard.tsx` lines 241–257) -/

/-- The vendor/model/apiType share computation of `Dashboard.tsx`: sums the
counts with `reduce((a, b) => a + b, 0)` and maps each `(name, count)` entry
to `(name, sum > 0 ? (count / sum) * 100 : 0)`. -/
def categoryShares (counts : List (String × ℚ)) : List (String × ℚ) :=
  let total := (counts.map Prod.snd).sum
  counts.map fun p => (p.1, if total > 0 then p.2 / total * 100 else 0)

/-! ## Dashboard fetch state (`loadAnalytics` in `Dashboard.tsx` /
`Analytics.tsx`) -/

/-- The component state touched by `loadAnalytics`. -/
structure DashState where
  analyticsData : Option AnalyticsData
  error : Option String
  loading : Bool
deriving DecidableEq

/-- The rejected value of a failed fetch as read by the catch block:
`err.response?.data?.message` (optional) and `err.message` (optional, an
axios error message string that may be empty). -/
structure FetchFailure where
  responseMessage : Option String
  message : Option String
deriving DecidableEq

/-- The user-visible message chosen by the catch block:
`err.response?.data?.message || err.message || "Failed to load analytics
data"`. -/
def errorText (e : FetchFailure) : String :=
  jsOrOptStr e.responseMessage (jsOrOptStr e.message "Failed to load analytics data")

/-- One run of `loadAnalytics` as a state transition: `setLoading(true)` and
`setError(null)` happen first; on a successful fetch the transformed data is
stored and the error stays cleared; on a failed fetch only the error message
is stored (the previously stored view model is untouched); `finally` sets
`loading := false`. -/
def loadAnalyticsStep (st : DashState)
    (result : Except FetchFailure AnalyticsResponse) : DashState :=
  match result with
  | .ok data =>
    { analyticsData := some (transformAnalytics data), error := none, loading := false }
  | .error e =>
    { analyticsData := st.analyticsData, error := some (errorText e), loading := false }

/-! ## Concrete sample data -/

/-- A concrete chart-ready view model with every optional section populated,
used to exercise the normalizer round trip. -/
def sampleViewModel : AnalyticsData :=
  { summary :=
      { totalEvents := 12, totalTokens := 3400, totalCost := 7,
        totalRevenue := 9, totalProfit := 2, profitMargin := 22 },
    usageByVendor := [("openai", 8), ("anthropic", 4)],
    usageByModel := [("gpt-4", 8), ("claude", 4)],
    usageByApiType := [("chat", 12)],
    usageByRegion := some [("us-east", 12)],
    usageByEndpoint := some [("/v1/chat", 12)],
    usageByUserRole := some [("USER", 12)],
    timeSeriesData :=
      [{ date := "2025-03-01", events := 5, cost := 3,
         revenue := 4, profit := some 1 }],
    topCustomers := [{ customerName := "Acme", totalCost := 7, eventCount := 12 }],
    growthMetrics :=
      some { eventsGrowth := some 1, tokensGrowth := some 2,
             costGrowth := some 3, revenueGrowth := some 4,
             profitGrowth := some 5, comparisonPeriod := some "previous" },
    predictions :=
      some { predictedEvents := some 13, predictedTokens := some 3500,
             predictedCost := some 8, predictedRevenue := some 10,
             predictedProfit := some 2 },
    efficiencyMetrics :=
      some { costPerEvent := some 1, revenuePerEvent := some 1,
             profitPerEvent := some 1, costPerToken := some 1,
             revenuePerToken := some 1, profitPerToken := some 1 },
    seasonality :=
      some { weeklyPattern := some [("Mon", 2)],
             monthlyPattern := some [("Mar", 12)] },
    anomalies :=
      some [{ date := "2025-03-02", type := "spike",
              metric := "cost", description := "cost spike" }] }

/-- A concrete wire payload with every optional field present whose single
top customer has an empty `organizationName`. -/
def fullPayloadSample : AnalyticsResponse :=
  { period := "30days", startDate := "2025-02-13", endDate := "2025-03-15",
    totalEvents := some 1, totalTokens := some 2, totalCost := some 3,
    totalRevenue := some 4, totalProfit := some 1, profitMargin := some 25,
    usageByVendor := some [("openai", 1)],
    usageByModel := some [("gpt-4", 1)],
    usageByApiType := some [("chat", 1)],
    usageByRegion := some [("us-east", 1)],
    usageByEndpoint := some [("/v1/chat", 1)],
    usageByUserRole := some [("USER", 1)],
    costByVendor := some [("openai", 3)],
    costByModel := some [("gpt-4", 3)],
    costByApiType := some [("chat", 3)],
    timeSeriesData :=
      some [{ date := "2025-03-01", events := some 1, tokens := some 2,
              cost := some 3, revenue := some 4, profit := some 1 }],
    topCustomers :=
      some [{ customerId := "c1", organizationName := "",
              events := some 1, tokens := some 2, cost := some 3,
              revenue := some 4, profit := some 1, profitMargin := some 25 }],
    topUsers :=
      some [{ userId := "u1", fullName := "A B", email := "a@b.c",
              customerId := "c1", events := some 1, tokens := some 2,
              cost := some 3, revenue := some 4, profit := some 1 }],
    growthMetrics :=
      some { eventsGrowth := some 1, tokensGrowth := some 1,
             costGrowth := some 1, revenueGrowth := some 1,
             profitGrowth := some 1, comparisonPeriod := some "previous" },
    predictions :=
      some { predictedEvents := some 1, predictedTokens := some 1,
             predictedCost := some 1, predictedRevenue := some 1,
             predictedProfit := some 1 },
    efficiencyMetrics :=
      some { costPerEvent := some 1, revenuePerEvent := some 1,
             profitPerEvent := some 1, costPerToken := some 1,
             revenuePerToken := some 1, profitPerToken := some 1 },
    seasonality :=
      some { weeklyPattern := some [("Mon", 1)],
             monthlyPattern := some [("Mar", 1)] },
    anomalies :=
      some [{ date := "2025-03-02", type := "spike",
              metric := "cost", description := "cost spike" }] }

end LLMTracker

attribute [ext] LLMTracker.AnalyticsData

open LLMTracker

/-- C7: date-range resolution is a deterministic function of the selector and
a fixed "now": with now = 2025-03-15, `thismonth` resolves to
[2025-03-01, 2025-03-31] and `7days` to [2025-03-08, 2025-03-15]; `alltime`
resolves to [the fixed floor date 2024-01-01, now] for every "now". -/
theorem dateRange_resolution_deterministic :
    calculateDateRange "thismonth" ⟨2025, 3, 15⟩ = ("2025-03-01", "2025-03-31") ∧
    calculateDateRange "7days" ⟨2025, 3, 15⟩ = ("2025-03-08", "2025-03-15") ∧
    ∀ now : Date, calculateDateRange "alltime" now = ("2024-01-01", formatDate now) := by
  refine ⟨by decide, by decide, fun now => ?_⟩
  simp [calculateDateRange]
  decide

/-- C10: every selector other than the five recognized ones falls back to the
last-30-days window, the same result as selector `30days`. -/
theorem dateRange_default_fallback (r : String) (now : Date)
    (h7 : r ≠ "7days") (h30 : r ≠ "30days") (hm : r ≠ "thismonth")
    (hy : r ≠ "thisyear") (ha : r ≠ "alltime") :
    calculateDateRange r now = (formatDate (subDays now 30), formatDate now) ∧
    calculateDateRange r now = calculateDateRange "30days" now := by
  constructor <;> simp [calculateDateRange, h7, h30, hm, hy, ha]

/-- Witness for C10 at the concrete selector `custom` and now = 2025-03-15:
the fallback window is [2025-02-13, 2025-03-15]. -/
theorem dateRange_default_fallback_witness :
    calculateDateRange "custom" ⟨2025, 3, 15⟩ = ("2025-02-13", "2025-03-15") ∧
    calculateDateRange "custom" ⟨2025, 3, 15⟩ = calculateDateRange "30days" ⟨2025, 3, 15⟩ := by
  have h := dateRange_default_fallback "custom" ⟨2025, 3, 15⟩
    (by decide) (by decide) (by decide) (by decide) (by decide)
  exact ⟨by rw [h.1]; decide, h.2⟩

/-! ## Helper lemmas -/

/-- Mapping a function that fixes every element of a list is the identity. -/
theorem map_eq_self_of_forall {α : Type} (l : List α) (f : α → α)
    (h : ∀ a ∈ l, f a = a) : l.map f = l := by
  induction l with
  | nil => rfl
  | cons a t ih =>
    simp only [List.map_cons, h a (List.mem_cons_self a t)]
    exact congrArg _ (ih fun x hx => h x (List.mem_cons_of_mem a hx))

/-! ## Claim theorems -/

/-- C2: on a 401 response the interceptor removes both the persisted
credential (`token`) and identity (`user`), forces navigation to `/login`,
and still rejects with the original error; any non-401 error passes through
with storage untouched and no redirect, and successful responses pass
through unchanged. -/
theorem response401_clears_session_and_propagates (storage : Storage)
    (e : HttpError) (r : Response) :
    (e.status = some 401 →
      responseErrorInterceptor storage e =
        { storage := { token := none, user := none }, redirect := some "/login",
          rejectedWith := e }) ∧
    (e.status ≠ some 401 →
      responseErrorInterceptor storage e =
        { storage := storage, redirect := none, rejectedWith := e }) ∧
    responseSuccessInterceptor r = r := by
  refine ⟨fun h => ?_, fun h => ?_, rfl⟩ <;> simp [responseErrorInterceptor, h]

/-- Witness for C2: a stored session is cleared and `/login` forced on a
concrete 401, while a concrete 500 passes through untouched. -/
theorem response401_clears_session_witness :
    responseErrorInterceptor ⟨some "tok", some "u"⟩ ⟨some 401⟩ =
      ⟨⟨none, none⟩, some "/login", ⟨some 401⟩⟩ ∧
    responseErrorInterceptor ⟨some "tok", some "u"⟩ ⟨some 500⟩ =
      ⟨⟨some "tok", some "u"⟩, none, ⟨some 500⟩⟩ :=
  ⟨(response401_clears_session_and_propagates ⟨some "tok", some "u"⟩ ⟨some 401⟩
      ⟨200, "ok"⟩).1 rfl,
   (response401_clears_session_and_propagates ⟨some "tok", some "u"⟩ ⟨some 500⟩
      ⟨200, "ok"⟩).2.1 (by decide)⟩

/-- C3: the Access Gate decision table — Initializing renders the waiting
indicator for any inputs; Unauthenticated redirects to the entry point
remembering the requested location; Authenticated USER hitting an
admin-or-above route and Authenticated ADMIN hitting a superadmin-only route
redirect to the root; Authenticated SUPERADMIN is admitted under any
requirement; requirement-free routes let any authenticated user through. -/
theorem accessGate_decision_table (location : String) (role : Option String)
    (requireAdmin requireSuperAdmin isAuthenticated : Bool) :
    protectedRoute true isAuthenticated role requireAdmin requireSuperAdmin
      location = .waiting ∧
    protectedRoute false false role requireAdmin requireSuperAdmin location =
      .redirectLogin location ∧
    protectedRoute false true (some "USER") true false location = .redirectRoot ∧
    protectedRoute false true (some "ADMIN") false true location = .redirectRoot ∧
    protectedRoute false true (some "SUPERADMIN") requireAdmin requireSuperAdmin
      location = .admitted ∧
    protectedRoute false true role false false location = .admitted := by
  refine ⟨?_, ?_, ?_, ?_, ?_, ?_⟩ <;> simp [protectedRoute]

/-- C4: the request interceptor attaches `Authorization: Bearer <token>`
whenever a credential is persisted (a truthy `token` in storage), and a
request built with no credential in storage carries no `Authorization`
header (provided the caller did not set one itself). -/
theorem bearer_header_attached_iff_session (storage : Storage)
    (config : RequestConfig) :
    (∀ t, storage.token = some t → t ≠ "" →
      (requestInterceptor storage config).headers "Authorization" =
        some ("Bearer " ++ t)) ∧
    ((storage.token = none ∨ storage.token = some "") →
      config.headers "Authorization" = none →
      (requestInterceptor storage config).headers "Authorization" = none) := by
  constructor
  · intro t ht hne
    simp [requestInterceptor, ht, hne, setHeader]
  · rintro (h | h) hnone <;> simp [requestInterceptor, h, hnone]

/-- Witness for C4 at a concrete storage and a header-free config. -/
theorem bearer_header_attached_witness :
    (requestInterceptor ⟨some "tok", some "u"⟩
      ⟨"/api/analytics/usage", fun _ => none⟩).headers "Authorization" =
      some ("Bearer " ++ "tok") ∧
    (requestInterceptor ⟨none, none⟩
      ⟨"/api/analytics/usage", fun _ => none⟩).headers "Authorization" = none :=
  ⟨(bearer_header_attached_iff_session ⟨some "tok", some "u"⟩
      ⟨"/api/analytics/usage", fun _ => none⟩).1 "tok" rfl (by decide),
   (bearer_header_attached_iff_session ⟨none, none⟩
      ⟨"/api/analytics/usage", fun _ => none⟩).2 (Or.inl rfl) rfl⟩

/-- C1 counterexample: a USER session whose own `customerId` is empty (falsy)
does not get the tenant override — the events query keeps the caller-supplied
`customerId` filter `OTHER` instead of the session tenant, and the analytics
query omits `customerId` — so the claim "customerId is always forced to the
session tenant for roles below SUPERADMIN" fails as stated. -/
theorem tenantScope_not_forced_on_empty_customerId :
    (buildEventsParams (some (UserInfo.mk "USER" ""))
      ⟨"OTHER", "", "", "", ""⟩ 0 10).customerId = "OTHER" ∧
    (buildEventsParams (some (UserInfo.mk "USER" ""))
      ⟨"OTHER", "", "", "", ""⟩ 0 10).customerId ≠ (UserInfo.mk "USER" "").customerId ∧
    (buildAnalyticsParams (some (UserInfo.mk "USER" ""))
      "2025-02-13" "2025-03-15").customerId = none := by
  refine ⟨?_, ?_, ?_⟩ <;> decide

/-- C1 (amended): for every session whose role is not `SUPERADMIN` and whose
`customerId` is non-empty, both the analytics query and the events query carry
`customerId` equal to the session tenant, overriding any caller-supplied
events filter. -/
theorem tenantScope_forced_below_superadmin (u : UserInfo)
    (startDate endDate : String) (filters : EventsFilters) (page size : Nat)
    (hrole : u.role ≠ "SUPERADMIN") (hcid : u.customerId ≠ "") :
    (buildAnalyticsParams (some u) startDate endDate).customerId =
      some u.customerId ∧
    (buildEventsParams (some u) filters page size).customerId = u.customerId := by
  constructor <;> simp [buildAnalyticsParams, buildEventsParams, hrole, hcid]

/-- Witness for the amended C1 at a concrete USER session with tenant
`cust-1` and a caller-supplied events filter `OTHER`. -/
theorem tenantScope_forced_witness :
    ((UserInfo.mk "USER" "cust-1").role ≠ "SUPERADMIN" ∧
      (UserInfo.mk "USER" "cust-1").customerId ≠ "") ∧
    (buildAnalyticsParams (some (UserInfo.mk "USER" "cust-1"))
      "2025-02-13" "2025-03-15").customerId = some "cust-1" ∧
    (buildEventsParams (some (UserInfo.mk "USER" "cust-1"))
      ⟨"OTHER", "", "", "", ""⟩ 0 10).customerId = "cust-1" :=
  ⟨⟨by decide, by decide⟩,
   tenantScope_forced_below_superadmin (UserInfo.mk "USER" "cust-1")
     "2025-02-13" "2025-03-15" ⟨"OTHER", "", "", "", ""⟩ 0 10
     (by decide) (by decide)⟩

/-- C5: the normalizer sends the empty payload to the fully-defaulted view
model — every numeric field is `0`, every mapping field is the empty mapping,
every sequence field is the empty sequence, and every optional section
(growth metrics, predictions, efficiency metrics, seasonality, anomalies,
extra usage maps) is present as an empty structure rather than absent. -/
theorem normalizer_defaults_empty_payload :
    transformAnalytics emptyResponse =
      { summary := { totalEvents := 0, totalTokens := 0, totalCost := 0,
                     totalRevenue := 0, totalProfit := 0, profitMargin := 0 },
        usageByVendor := [], usageByModel := [], usageByApiType := [],
        usageByRegion := some [], usageByEndpoint := some [],
        usageByUserRole := some [],
        timeSeriesData := [], topCustomers := [],
        growthMetrics := some emptyGrowthMetrics,
        predictions := some emptyPredictions,
        efficiencyMetrics := some emptyEfficiencyMetrics,
        seasonality := some emptySeasonality,
        anomalies := some [] } := rfl

/-- C6: with nonnegative counts, a zero total yields a zero share for every
category (no division fault), a nonzero total yields shares of
`100 × count / total`, and concretely counts A=3, B=1 give shares A=75, B=25
while counts A=0, B=0 give shares A=0, B=0. -/
theorem categoryShares_safe_division (counts : List (String × ℚ))
    (hnn : ∀ p ∈ counts, 0 ≤ p.2) :
    (((counts.map Prod.snd).sum = 0 →
        ∀ q ∈ categoryShares counts, q.2 = 0) ∧
      ((counts.map Prod.snd).sum ≠ 0 →
        categoryShares counts =
          counts.map fun p => (p.1, 100 * p.2 / (counts.map Prod.snd).sum))) ∧
    categoryShares [("A", 3), ("B", 1)] = [("A", 75), ("B", 25)] ∧
    categoryShares [("A", 0), ("B", 0)] = [("A", 0), ("B", 0)] := by
  refine ⟨⟨fun h q hq => ?_, fun h => ?_⟩, by norm_num [categoryShares],
    by norm_num [categoryShares]⟩
  · simp only [categoryShares, List.mem_map] at hq
    obtain ⟨p, _, rfl⟩ := hq
    simp [h]
  · have hnn2 : ∀ x ∈ counts.map Prod.snd, 0 ≤ x := by
      intro x hx
      obtain ⟨p, hp, rfl⟩ := List.mem_map.mp hx
      exact hnn p hp
    have hpos : 0 < (counts.map Prod.snd).sum :=
      lt_of_le_of_ne (List.sum_nonneg hnn2) (Ne.symm h)
    simp only [categoryShares]
    refine List.map_congr_left fun p _ => ?_
    rw [if_pos hpos, div_mul_eq_mul_div, mul_comm]

/-- Witness for C6 at the concrete counts A=3, B=1 (all nonnegative). -/
theorem categoryShares_safe_division_witness :
    (∀ p ∈ [(("A" : String), (3 : ℚ)), ("B", 1)], 0 ≤ p.2) ∧
    categoryShares [("A", 3), ("B", 1)] = [("A", 75), ("B", 25)] :=
  ⟨by norm_num, (categoryShares_safe_division [("A", 3), ("B", 1)] (by norm_num)).2.1⟩

/-- Fallback through `jsOrStr` never produces the empty string when the
fallback itself is non-empty. -/
theorem jsOrStr_ne_empty (a b : String) (hb : b ≠ "") : jsOrStr a b ≠ "" := by
  by_cases ha : a = "" <;> simp [jsOrStr, ha, hb]

/-- Fallback through `jsOrOptStr` never produces the empty string when the
fallback itself is non-empty. -/
theorem jsOrOptStr_ne_empty (o : Option String) (d : String) (hd : d ≠ "") :
    jsOrOptStr o d ≠ "" := by
  cases o with
  | none => simpa [jsOrOptStr] using hd
  | some s => simpa [jsOrOptStr] using jsOrStr_ne_empty s d hd

/-- C8: a failed analytics fetch leaves the previously stored view model
untouched, stores a non-empty user-visible error message, and clears the
loading flag. -/
theorem failed_fetch_preserves_viewmodel (st : DashState) (e : FetchFailure) :
    (loadAnalyticsStep st (.error e)).analyticsData = st.analyticsData ∧
    (loadAnalyticsStep st (.error e)).error = some (errorText e) ∧
    errorText e ≠ "" := by
  exact ⟨rfl, rfl,
    jsOrOptStr_ne_empty _ _ (jsOrOptStr_ne_empty _ _ (by decide))⟩

/-- C9 counterexample: a fully-populated payload is not returned unchanged by
the normalizer — with every field present but an empty top-customer
`organizationName`, the normalizer rewrites the name to the `customerId`
fallback, so even the field it retains differs from the input. -/
theorem normalizer_alters_full_payload :
    isFullPayload fullPayloadSample = true ∧
    (transformAnalytics fullPayloadSample).topCustomers.map
        TopCustomerView.customerName ≠
      (fullPayloadSample.topCustomers.getD []).map
        TopCustomerEntry.organizationName := by
  constructor
  · decide
  · decide

/-- C9 (amended): the normalizer is idempotent on its own output shape — for
every view model whose optional sections are populated, whose time-series
points carry an explicit profit, and whose top customers have non-empty
names, re-injecting it as a fully-populated payload and normalizing again
yields it unchanged (the payload fields the normalizer retains pass through
without alteration). -/
theorem normalizer_roundtrip_idempotent (period startDate endDate : String)
    (v : AnalyticsData)
    (hreg : v.usageByRegion.isSome) (hend : v.usageByEndpoint.isSome)
    (hrole : v.usageByUserRole.isSome) (hgm : v.growthMetrics.isSome)
    (hpr : v.predictions.isSome) (hem : v.efficiencyMetrics.isSome)
    (hse : v.seasonality.isSome) (han : v.anomalies.isSome)
    (hts : ∀ p ∈ v.timeSeriesData, p.profit.isSome)
    (htc : ∀ c ∈ v.topCustomers, c.customerName ≠ "") :
    isFullPayload (reinject period startDate endDate v) = true ∧
    transformAnalytics (reinject period startDate endDate v) = v := by
  constructor
  · simp [isFullPayload, reinject]
  · obtain ⟨reg, hreg⟩ := Option.isSome_iff_exists.mp hreg
    obtain ⟨uend, hend⟩ := Option.isSome_iff_exists.mp hend
    obtain ⟨urole, hrole⟩ := Option.isSome_iff_exists.mp hrole
    obtain ⟨gm, hgm⟩ := Option.isSome_iff_exists.mp hgm
    obtain ⟨pr, hpr⟩ := Option.isSome_iff_exists.mp hpr
    obtain ⟨em, hem⟩ := Option.isSome_iff_exists.mp hem
    obtain ⟨se, hse⟩ := Option.isSome_iff_exists.mp hse
    obtain ⟨an, han⟩ := Option.isSome_iff_exists.mp han
    refine AnalyticsData.ext rfl rfl rfl rfl ?_ ?_ ?_ ?_ ?_ ?_ ?_ ?_ ?_ ?_
    · simp [transformAnalytics, reinject, hreg]
    · simp [transformAnalytics, reinject, hend]
    · simp [transformAnalytics, reinject, hrole]
    · simp only [transformAnalytics, reinject, Option.getD_some, List.map_map]
      refine map_eq_self_of_forall _ _ fun p hp => ?_
      obtain ⟨q, hq⟩ := Option.isSome_iff_exists.mp (hts p hp)
      cases p
      simp_all [orZero, Function.comp]
    · simp only [transformAnalytics, reinject, Option.getD_some, List.map_map]
      refine map_eq_self_of_forall _ _ fun c hc => ?_
      have hname := htc c hc
      cases c
      simp_all [orZero, jsOrStr, Function.comp]
    · simp [transformAnalytics, reinject, hgm]
    · simp [transformAnalytics, reinject, hpr]
    · simp [transformAnalytics, reinject, hem]
    · simp [transformAnalytics, reinject, hse]
    · simp [transformAnalytics, reinject, han]

/-- Witness for the amended C9 at the concrete `sampleViewModel`. -/
theorem normalizer_roundtrip_witness :
    (sampleViewModel.usageByRegion.isSome ∧
      sampleViewModel.usageByEndpoint.isSome ∧
      sampleViewModel.usageByUserRole.isSome ∧
      sampleViewModel.growthMetrics.isSome ∧
      sampleViewModel.predictions.isSome ∧
      sampleViewModel.efficiencyMetrics.isSome ∧
      sampleViewModel.seasonality.isSome ∧
      sampleViewModel.anomalies.isSome ∧
      (∀ p ∈ sampleViewModel.timeSeriesData, p.profit.isSome) ∧
      (∀ c ∈ sampleViewModel.topCustomers, c.customerName ≠ "")) ∧
    transformAnalytics
        (reinject "30days" "2025-02-13" "2025-03-15" sampleViewModel) =
      sampleViewModel :=
  ⟨⟨by decide, by decide, by decide, by decide, by decide, by decide,
    by decide, by decide, by decide, by decide⟩,
   (normalizer_roundtrip_idempotent "30days" "2025-02-13" "2025-03-15"
      sampleViewModel (by decide) (by decide) (by decide) (by decide)
      (by decide) (by decide) (by decide) (by decide) (by decide)
      (by decide)).2⟩
